import Mathlib

/-!
Verification of the email-generator MCP server (src/server/server.py).

The development shallowly embeds the parts of the program that the checked
claims are about:

* the email composer inside `send_email` (HTML-escape the plain body,
  replace line breaks by `<br>`, wrap in a minimal HTML document, set the
  To / From / Subject headers, serialize and URL-safe-base64-encode);
* the result strings of `send_email` and its try/except error handling;
* `get_gmail_service` (token file, refresh, interactive flow, credentials
  file check) as a function of an explicit environment that also records
  the trace of externally visible actions;
* `_enrich_person` and the two Apollo lookup tools, with the HTTP world
  passed in explicitly and a raised exception modelled as `Except.error`.

Strings are handled through their character lists; bytes are `Nat` values
below 256.
-/

namespace EmailGen

/-- Python truthiness of an optional string: `None` and the empty string are
falsy, every other string is truthy. -/
def py_truthy : Option String → Bool
  | none => false
  | some s => !(s == "")

/-! ## The composer: html.escape, newline replacement, HTML wrapping -/

/-- Per-character action of Python `html.escape(s, quote=True)`: the
sequential replacements of `&`, `<`, `>`, `"`, and the apostrophe are
equivalent to this single character-wise map because `&` is replaced first. -/
def escapeChar (c : Char) : List Char :=
  if c = '&' then ['&', 'a', 'm', 'p', ';']
  else if c = '<' then ['&', 'l', 't', ';']
  else if c = '>' then ['&', 'g', 't', ';']
  else if c = '"' then ['&', 'q', 'u', 'o', 't', ';']
  else if c = Char.ofNat 39 then ['&', '#', 'x', '2', '7', ';']
  else [c]

/-- `html.escape(body)` over the character list of the body. -/
def html_escape (cs : List Char) : List Char :=
  cs.flatMap escapeChar

/-- `escaped_body.replace(chr(10), "<br>")`: the pattern is a single
character, so the replacement acts character-wise. -/
def replace_newlines (cs : List Char) : List Char :=
  cs.flatMap fun c => if c = '\n' then ['<', 'b', 'r', '>'] else [c]

/-- Line 102 of the source: the body of the f-string
`<html><body>{html_formatted_body}<br></body></html>` applied to the
escaped body with line breaks replaced. -/
def composeHtmlBody (body : List Char) : List Char :=
  "<html><body>".data ++ replace_newlines (html_escape body) ++ "<br></body></html>".data

/-- The HTML document the composer builds from a plain body, as a string. -/
def compose_html_document (body : String) : String :=
  String.mk (composeHtmlBody body.data)

/-! ## Counting markers and rendering visible text -/

/-- Transition function of the scanner that counts `<br>` markers: the
state is how many characters of `<br>` are currently matched (0 to 3). -/
def brDelta (s : Nat) (c : Char) : Nat :=
  if s = 0 then (if c = '<' then 1 else 0)
  else if s = 1 then (if c = 'b' then 2 else if c = '<' then 1 else 0)
  else if s = 2 then (if c = 'r' then 3 else if c = '<' then 1 else 0)
  else (if c = '<' then 1 else 0)

/-- Scan for non-overlapping occurrences of `<br>`, counting one each time
the matched prefix of length 3 is completed by `>`. -/
def brScan : Nat → List Char → Nat
  | _, [] => 0
  | s, c :: rest => (if s = 3 ∧ c = '>' then 1 else 0) + brScan (brDelta s c) rest

/-- Number of occurrences of the line-break marker `<br>` in a character
list, scanning left to right. -/
def count_br (cs : List Char) : Nat :=
  brScan 0 cs

/-- Number of line-break characters in a character list. -/
def count_nl : List Char → Nat
  | [] => 0
  | c :: rest => (if c = '\n' then 1 else 0) + count_nl rest

/-- UTF-8 encoding of one character, written with division and remainder so
that the byte arithmetic stays in `Nat`. -/
def utf8EncodeChar (c : Char) : List Nat :=
  if c.toNat < 128 then [c.toNat]
  else if c.toNat < 2048 then [192 + c.toNat / 64, 128 + c.toNat % 64]
  else if c.toNat < 65536 then
    [224 + c.toNat / 4096, 128 + c.toNat / 64 % 64, 128 + c.toNat % 64]
  else
    [240 + c.toNat / 262144, 128 + c.toNat / 4096 % 64, 128 + c.toNat / 64 % 64, 128 + c.toNat % 64]

/-- UTF-8 encoding of a character list. -/
def utf8Encode (cs : List Char) : List Nat :=
  cs.flatMap utf8EncodeChar

/-- Character `i` of the URL-safe base64 alphabet, `0 ≤ i < 64`. -/
def b64Char (i : Nat) : Char :=
  if i < 26 then Char.ofNat (65 + i)
  else if i < 52 then Char.ofNat (97 + (i - 26))
  else if i < 62 then Char.ofNat (48 + (i - 52))
  else if i = 62 then '-'
  else '_'

/-- Index of a character in the URL-safe base64 alphabet. -/
def b64Val (c : Char) : Option Nat :=
  let n := c.toNat
  if 65 ≤ n ∧ n ≤ 90 then some (n - 65)
  else if 97 ≤ n ∧ n ≤ 122 then some (n - 97 + 26)
  else if 48 ≤ n ∧ n ≤ 57 then some (n - 48 + 52)
  else if n = 45 then some 62
  else if n = 95 then some 63
  else none

/-- URL-safe base64 encoding of a byte list, with `=` padding, exactly as
`base64.urlsafe_b64encode` produces it. -/
def b64Encode : List Nat → List Char
  | [] => []
  | [a] => [b64Char (a / 4), b64Char (a % 4 * 16), '=', '=']
  | [a, b] => [b64Char (a / 4), b64Char (a % 4 * 16 + b / 16), b64Char (b % 16 * 4), '=']
  | a :: b :: c :: rest =>
    b64Char (a / 4) :: b64Char (a % 4 * 16 + b / 16) :: b64Char (b % 16 * 4 + c / 64) ::
      b64Char (c % 64) :: b64Encode rest

/-- A character of a well-formed base64 payload: a member of the URL-safe
alphabet or the padding character. -/
def is_b64_or_pad (c : Char) : Bool :=
  (b64Val c).isSome || c == '='

/-! ## The header policy gate (EmailPolicy.header_store_parse) -/

/-- The line-boundary characters of Python `str.splitlines`: LF, VT, FF,
CR, FS, GS, RS, NEL, LINE SEPARATOR, PARAGRAPH SEPARATOR. -/
def isLineBoundary (c : Char) : Bool :=
  [10, 11, 12, 13, 28, 29, 30, 133, 8232, 8233].contains c.toNat

/-- Modelled from the email library: `len(value.splitlines()) > 1`, the
condition under which `EmailPolicy.header_store_parse` rejects a header
value. A CRLF pair is one boundary, and one trailing boundary does not
create a second line. -/
def multiline_check : List Char → Bool
  | [] => false
  | c :: rest =>
    if c = '\r' then
      match rest with
      | [] => false
      | c2 :: rest2 => if c2 = '\n' then !rest2.isEmpty else true
    else if isLineBoundary c then !rest.isEmpty
    else multiline_check rest

/-- The message of the `ValueError` the policy raises for a multi-line
header value. -/
def header_policy_error_message : String :=
  "Header values may not contain linefeed or carriage return characters"

/-- Modelled from the email library: `EmailPolicy.header_store_parse`,
run by `message["To"] = ...` and `message["Subject"] = ...`, raises
`ValueError` when the value spans more than one line. -/
def header_store_parse (value : String) : Except String String :=
  if multiline_check value.data then Except.error header_policy_error_message
  else Except.ok value

/-! ## The content manager (set_content): normalization and the content
transfer encoding -/

/-- One pass of `bytes.splitlines`-style newline normalization: CR and
CRLF become LF (the flag records that the previous byte was a CR, so the
LF of a CRLF pair is not emitted twice). -/
def normalizeCRFrom : Bool → List Nat → List Nat
  | _, [] => []
  | sawCR, b :: rest =>
    if b = 13 then 10 :: normalizeCRFrom true rest
    else if b = 10 then
      if sawCR then normalizeCRFrom false rest else 10 :: normalizeCRFrom false rest
    else b :: normalizeCRFrom false rest

/-- Normalize CR and CRLF to LF in a byte string. -/
def normalizeCR (bs : List Nat) : List Nat :=
  normalizeCRFrom false bs

/-- Split a byte string at every LF (the pieces around the separators,
so a trailing LF yields a trailing empty piece). -/
def splitOnByte10 : List Nat → List (List Nat)
  | [] => [[]]
  | b :: rest =>
    if b = 10 then [] :: splitOnByte10 rest
    else
      match splitOnByte10 rest with
      | l :: ls => (b :: l) :: ls
      | [] => [[b]]

/-- `string.encode(charset).splitlines()` of the content manager: split
at LF, CR, and CRLF, without a trailing empty line. -/
def linesOfBytes (bs : List Nat) : List (List Nat) :=
  let ps := splitOnByte10 (normalizeCR bs)
  if ps.getLast? = some [] then ps.dropLast else ps

/-- Join byte lines with LF separators. -/
def joinByte10 : List (List Nat) → List Nat
  | [] => []
  | l :: rest => if rest.isEmpty then l else l ++ 10 :: joinByte10 rest

/-- `normal_body` of the content manager: the lines joined with LF plus a
trailing LF. -/
def normal_body (bs : List Nat) : List Nat :=
  joinByte10 (linesOfBytes bs) ++ [10]

/-- `policy.max_line_length` of the default email policy. -/
def max_line_length : Nat := 78

/-- `max(len(x) for x in lines, default=0)` of the content manager. -/
def maxLineLen (bs : List Nat) : Nat :=
  ((linesOfBytes bs).map List.length).foldr Nat.max 0

/-! ## quoted-printable (quoprimime.body_encode) -/

/-- Uppercase hexadecimal digit. -/
def hexDigit (n : Nat) : Char :=
  if n < 10 then Char.ofNat (48 + n) else Char.ofNat (55 + n)

/-- The bytes the quoted-printable body map leaves unescaped: TAB and the
printable ASCII range without the equals sign. (LF and CR are handled by
the line splitting around this map; the normalized bodies this model
encodes contain no CR.) -/
def qp_safe (b : Nat) : Bool :=
  b == 9 || (decide (32 ≤ b) && decide (b ≤ 126) && !(b == 61))

/-- Quote one byte for a quoted-printable body: safe bytes stay
themselves, everything else becomes `=XX` with uppercase hex. -/
def qpEscByte (b : Nat) : List Char :=
  if qp_safe b then [Char.ofNat b] else ['=', hexDigit (b / 16 % 16), hexDigit (b % 16)]

/-- `body.translate(_QUOPRI_BODY_ENCODE_MAP)` over one line. -/
def qpTranslate (line : List Nat) : List Char :=
  line.flatMap qpEscByte

/-- `quoprimime.quote` of one character: `=XX` with uppercase hex. -/
def qpQuoteChar (c : Char) : List Char :=
  ['=', hexDigit (c.toNat / 16 % 16), hexDigit (c.toNat % 16)]

/-- The final piece (or pieces) of a wrapped line, at most 78 characters
long: a line ending in space or tab gets that character quoted so it
survives transport — directly when the three-character quote fits within
the limit, and behind a soft break otherwise. -/
def qpRemainder (cs : List Char) : List (List Char) :=
  match cs.getLast? with
  | some c =>
    if c = ' ' ∨ c = '\t' then
      if cs.length ≤ 76 then [cs.dropLast ++ qpQuoteChar c]
      else if cs.length = 77 then [cs ++ ['='], []]
      else [cs.dropLast ++ ['='], qpQuoteChar c]
    else [cs]
  | none => [[]]

/-- The line-wrapping loop of `quoprimime.body_encode` with
`maxlinelen = 78`: cut pieces of at most 77 characters followed by a soft
break `=`, never splitting an `=XX` escape — when the cut would fall just
after the `=` of an escape, the piece ends at that `=` (which doubles as
the soft break) and the escape restarts the next piece. What remains
after the loop is handled by `qpRemainder`. The fuel is the length of
the line, enough for the at-least-75-character steps. -/
def qpChunksF : Nat → List Char → List (List Char)
  | 0, cs => qpRemainder cs
  | fuel + 1, cs =>
    if cs.length ≤ 78 then qpRemainder cs
    else if cs.getD 75 'A' = '=' then cs.take 76 :: qpChunksF fuel (cs.drop 75)
    else if cs.getD 76 'A' = '=' then cs.take 77 :: qpChunksF fuel (cs.drop 76)
    else (cs.take 77 ++ ['=']) :: qpChunksF fuel (cs.drop 77)

/-- Wrap one translated line into soft-broken pieces. -/
def qpChunks (cs : List Char) : List (List Char) :=
  qpChunksF cs.length cs

/-- Join encoded lines with LF. -/
def joinNL : List (List Char) → List Char
  | [] => []
  | l :: rest => if rest.isEmpty then l else l ++ '\n' :: joinNL rest

/-- `quoprimime.body_encode(body, maxlinelen=78)` for the normalized,
CR-free, newline-terminated bodies the content manager passes: quote each
line, wrap it, and join all pieces with LF (the trailing newline of the
body shows up as a final empty piece). -/
def qp_body_encode (bs : List Nat) : List Char :=
  joinNL ((splitOnByte10 bs).flatMap fun line => qpChunks (qpTranslate line))

/-- Split a character string at every LF. -/
def splitOnNLChars : List Char → List (List Char)
  | [] => [[]]
  | c :: rest =>
    if c = '\n' then [] :: splitOnNLChars rest
    else
      match splitOnNLChars rest with
      | l :: ls => (c :: l) :: ls
      | [] => [[c]]

/-- Map the URL-safe base64 alphabet to the standard one. -/
def b64CharStd (c : Char) : Char :=
  if c = '-' then '+' else if c = '_' then '/' else c

/-- Standard-alphabet base64 of a byte string. -/
def b64_std_encode (bs : List Nat) : List Char :=
  (b64Encode bs).map b64CharStd

/-- `_encode_base64` of the content manager with `max_line_length = 78`:
`binascii.b2a_base64` (standard base64 plus a trailing LF) of each
57-byte chunk, concatenated; empty data encodes to nothing. The fuel is
the length of the data, enough for the 57-byte steps. -/
def b64_lines_encodeF : Nat → List Nat → List Char
  | _, [] => []
  | 0, bs => b64_std_encode bs ++ ['\n']
  | fuel + 1, bs =>
    if bs.length ≤ 57 then b64_std_encode bs ++ ['\n']
    else b64_std_encode (bs.take 57) ++ '\n' :: b64_lines_encodeF fuel (bs.drop 57)

/-- Chunked standard base64 with a LF after every 57-byte chunk. -/
def b64_lines_encode (bs : List Nat) : List Char :=
  b64_lines_encodeF bs.length bs

/-- Length of `binascii.b2a_base64` output for `n` bytes: the padded
base64 plus the trailing LF. -/
def b64_sniff_len (n : Nat) : Nat :=
  4 * ((n + 2) / 3) + 1

/-- The heuristic of `_encode_text`: 7bit when every line fits in
`max_line_length` and the bytes are ASCII, 8bit when the lines fit but
the bytes are not ASCII, otherwise quoted-printable unless its encoding
of the first ten lines comes out longer than base64's. -/
def chooseCTE (bs : List Nat) : String :=
  if maxLineLen bs ≤ max_line_length then
    if (normal_body bs).all (fun b => decide (b < 128)) then "7bit" else "8bit"
  else
    let sniff := joinByte10 ((linesOfBytes bs).take 10) ++ [10]
    if (qp_body_encode sniff).length > b64_sniff_len sniff.length then "base64"
    else "quoted-printable"

/-- Character-level newline normalization, mirroring `normalizeCRFrom`:
the bytes 10 and 13 of UTF-8 come only from the characters LF and CR, so
normalizing the characters and normalizing the encoded bytes agree. -/
def normalizeCRCharsFrom : Bool → List Char → List Char
  | _, [] => []
  | sawCR, c :: rest =>
    if c = '\r' then '\n' :: normalizeCRCharsFrom true rest
    else if c = '\n' then
      if sawCR then normalizeCRCharsFrom false rest else '\n' :: normalizeCRCharsFrom false rest
    else c :: normalizeCRCharsFrom false rest

/-- The content lines at character level (`linesOfBytes` mirrored). -/
def linesOfChars (cs : List Char) : List (List Char) :=
  let ps := splitOnNLChars (normalizeCRCharsFrom false cs)
  if ps.getLast? = some [] then ps.dropLast else ps

/-- The body of the serialized message: the normalized text itself for
the identity encodings, the quoted-printable or chunked-base64 encoding
of the normalized bytes otherwise. -/
def body_text (content : List Char) : List Char :=
  let bs := utf8Encode content
  let cte := chooseCTE bs
  if cte = "quoted-printable" then qp_body_encode (normal_body bs)
  else if cte = "base64" then b64_lines_encode (normal_body bs)
  else joinNL (linesOfChars content) ++ ['\n']

/-- A header value after the colon: nothing for an empty value, a space
and the value otherwise (as the header folder emits unfolded values). -/
def optSpace (v : List Char) : List Char :=
  if v.isEmpty then [] else ' ' :: v

/-- `message.as_bytes()` as text, for messages whose To and Subject
values the folder emits verbatim (single-line ASCII values within
`max_line_length`): the Content-Type with quoted charset, the chosen
Content-Transfer-Encoding, MIME-Version, the three assigned headers in
order, a blank line, and the transfer-encoded body, all with LF line
separators. -/
def message_chars (recipient subject content : List Char) : List Char :=
  "Content-Type: text/html; charset=\"utf-8\"\nContent-Transfer-Encoding: ".data
    ++ (chooseCTE (utf8Encode content)).data
    ++ '\n' :: "MIME-Version: 1.0\nTo:".data
    ++ optSpace recipient
    ++ '\n' :: "From: me\nSubject:".data
    ++ optSpace subject
    ++ '\n' :: '\n' :: body_text content

/-- The byte string `message.as_bytes()` hands to
`base64.urlsafe_b64encode`. -/
def serializeMessage (recipient subject content : List Char) : List Nat :=
  utf8Encode (message_chars recipient subject content)

/-- Lines 97 to 109 of the source: the transport payload `send_email`
builds before submitting — the URL-safe base64 encoding of the serialized
message whose HTML body is the escaped, `<br>`-formatted, wrapped plain
body. -/
def send_email_payload (recipient_email subject body : String) : String :=
  String.mk (b64Encode (serializeMessage recipient_email.data subject.data (composeHtmlBody body.data)))

/-- Lines 97 to 109 with the header policy made explicit: the composer
raises the policy's `ValueError` when the To or Subject value is
multi-line (`message["To"] = ...` at line 104, `message["Subject"] = ...`
at line 106), and otherwise produces the transport payload. -/
def compose_payload (recipient_email subject body : String) : Except String String :=
  (header_store_parse recipient_email).bind fun _ =>
    (header_store_parse subject).map fun _ =>
      send_email_payload recipient_email subject body

/-- The To and Subject values the header folder emits verbatim: ASCII
values free of line boundaries whose header line stays within
`max_line_length` (longer or non-ASCII values are folded or
RFC 2047-encoded). -/
def header_value_ok (v : List Char) (maxlen : Nat) : Bool :=
  v.all (fun c => decide (c.toNat < 128) && !(isLineBoundary c)) && decide (v.length ≤ maxlen)

/-- An `atext` character of RFC 5322: letters, digits, and the atom
specials. The To header is an address header, so its value is parsed as
an address list; only values the parser renders back unchanged round
trip through the serialized message. -/
def atext_char (c : Char) : Bool :=
  (decide (65 ≤ c.toNat) && decide (c.toNat ≤ 90))
    || (decide (97 ≤ c.toNat) && decide (c.toNat ≤ 122))
    || (decide (48 ≤ c.toNat) && decide (c.toNat ≤ 57))
    || [33, 35, 36, 37, 38, 39, 42, 43, 45, 47, 61, 63, 94, 95, 96, 123, 124, 125, 126].contains c.toNat

/-- Scanner for a dot-atom: non-empty runs of `atext` characters
separated by single dots. The flag records whether the previous
character continued an atom (so a dot is only legal after one, and the
value may not end with a dot). -/
def dotAtomF : Bool → List Char → Bool
  | seen, [] => seen
  | seen, c :: rest =>
    if c = '.' then seen && dotAtomF false rest
    else atext_char c && dotAtomF true rest

/-- A dot-atom: `atom ("." atom)*` over `atext` characters. -/
def dotAtomOk (cs : List Char) : Bool :=
  dotAtomF false cs

/-- Split an address at its first `@`. -/
def splitAtSign : List Char → Option (List Char × List Char)
  | [] => none
  | c :: rest =>
    if c = '@' then some ([], rest)
    else (splitAtSign rest).map fun p => (c :: p.1, p.2)

/-- A plain addr-spec, `dot-atom "@" dot-atom`: the recipients the
address header parser accepts and renders back verbatim. -/
def addr_spec_ok (cs : List Char) : Bool :=
  match splitAtSign cs with
  | some (l, d) => dotAtomOk l && dotAtomOk d
  | none => false

/-! ## get_gmail_service -/

/-- The fields of a Google credential object that `get_gmail_service`
inspects. -/
structure GoogleCreds where
  valid : Bool
  expired : Bool
  refresh_token : Option String
  deriving DecidableEq, Repr

/-- The environment `get_gmail_service` runs in: the contents of
`token.json` if that file exists, whether `credentials.json` exists, the
outcome of `creds.refresh(Request())` (a raised refresh exception is
`Except.error`), and the credentials the interactive
`flow.run_local_server(port=0)` would produce. -/
structure GmailEnv where
  token_file : Option GoogleCreds
  credentials_file_exists : Bool
  refresh_result : Except String GoogleCreds
  flow_creds : GoogleCreds

/-- The externally visible actions of `get_gmail_service`, in order. -/
inductive GmailAction where
  | readTokenFile
  | refreshRequest
  | runLocalServer
  | writeTokenFile
  | buildService
  deriving DecidableEq, Repr

/-- The message of the `FileNotFoundError` raised when `credentials.json`
is absent. -/
def credentials_not_found_message : String :=
  "Error: credentials.json not found. Please ensure the credentials file is in the same directory as the server script."

/-- Lines 67 to 85 of the source: load `token.json` if present; if the
credentials are absent or invalid, refresh when expired with a refresh
token, otherwise fall back to the interactive flow after checking that
`credentials.json` exists; persist the result and build the service.
Returns the final credentials (or the raised exception) together with the
ordered trace of externally visible actions. -/
def get_gmail_service (env : GmailEnv) : Except String GoogleCreds × List GmailAction :=
  match env.token_file with
  | none =>
    if env.credentials_file_exists then
      (Except.ok env.flow_creds,
        [GmailAction.runLocalServer, GmailAction.writeTokenFile, GmailAction.buildService])
    else
      (Except.error credentials_not_found_message, [])
  | some creds =>
    if creds.valid then
      (Except.ok creds, [GmailAction.readTokenFile, GmailAction.buildService])
    else if creds.expired && py_truthy creds.refresh_token then
      match env.refresh_result with
      | Except.ok refreshed =>
        (Except.ok refreshed,
          [GmailAction.readTokenFile, GmailAction.refreshRequest,
            GmailAction.writeTokenFile, GmailAction.buildService])
      | Except.error e =>
        (Except.error e, [GmailAction.readTokenFile, GmailAction.refreshRequest])
    else if env.credentials_file_exists then
      (Except.ok env.flow_creds,
        [GmailAction.readTokenFile, GmailAction.runLocalServer,
          GmailAction.writeTokenFile, GmailAction.buildService])
    else
      (Except.error credentials_not_found_message, [GmailAction.readTokenFile])

/-! ## send_email -/

/-- Outcome of the Gmail send call for a given payload: the provider
returns a message id, raises an `HttpError`, or some other exception is
raised anywhere inside the try block. -/
inductive GmailSendOutcome where
  | success (messageId : String)
  | httpError (error : String)
  | otherError (error : String)

/-- A provider world that reacts to every payload the same way. -/
def constSendWorld (o : GmailSendOutcome) : String → GmailSendOutcome :=
  fun _ => o

/-- Lines 91 to 122 of the source: `send_email` composes the payload,
submits it, and renders the outcome — the success string with recipient
and message id, the `except HttpError` string, or the
`except Exception` string. Every branch returns a string, so the tool
never raises. -/
def send_email (recipient_email subject body : String)
    (world : String → GmailSendOutcome) : String :=
  match world (send_email_payload recipient_email subject body) with
  | GmailSendOutcome.success msgId =>
    "Successfully sent email to " ++ recipient_email ++ " with Message ID: " ++ msgId
  | GmailSendOutcome.httpError e => "Failed to send email. Error: " ++ e
  | GmailSendOutcome.otherError e => "An unexpected error occurred: " ++ e

/-! ## _enrich_person and the Apollo tools -/

/-- The parts of the Apollo person record `_enrich_person` inspects:
`data["person"]["email"]`, with `none` for an absent or null field. -/
structure ApolloPerson where
  email : Option String
  deriving DecidableEq, Repr

/-- Outcome of `requests.post` on the match endpoint: a parsed JSON
success body (with the person record, if any), an HTTP error status (the
`HTTPError` text and `response.text`), a network-level `RequestException`,
or any other exception. -/
inductive ApolloOutcome where
  | success (person : Option ApolloPerson)
  | httpError (err : String) (text : String)
  | requestError (err : String)
  | otherError (err : String)

/-- An Apollo world that reacts to every request body the same way. -/
def constApolloWorld (o : ApolloOutcome) : List (String × String) → ApolloOutcome :=
  fun _ => o

/-- The message of the `ValueError` raised when the API key is not set. -/
def apollo_key_error_message : String :=
  "APOLLO_API_KEY environment variable not set."

/-- The fixed not-found sentinel string. -/
def email_not_found_sentinel : String :=
  "Email not found for the given details."

/-- Lines 127 to 156 of the source: `_enrich_person`. The key check
`if not APOLLO_API_KEY` raises a `ValueError` — before any request is
issued and outside the try block, so it escapes the tool (`Except.error`).
Otherwise the request is posted with the params as JSON body and the
response is folded into a result string exactly as the four branches of
the source do; the email is used only when `data["person"]` and
`data["person"]["email"]` are present and truthy. -/
def «_enrich_person» (apollo_api_key : Option String) (params : List (String × String))
    (world : List (String × String) → ApolloOutcome) : Except String String :=
  if py_truthy apollo_api_key = false then Except.error apollo_key_error_message
  else
    match world params with
    | ApolloOutcome.success person =>
      match person with
      | some p =>
        match p.email with
        | some e =>
          if e = "" then Except.ok email_not_found_sentinel
          else Except.ok ("Email found: " ++ e)
        | none => Except.ok email_not_found_sentinel
      | none => Except.ok email_not_found_sentinel
    | ApolloOutcome.httpError err text =>
      Except.ok ("HTTP error occurred: " ++ err ++ " - " ++ text)
    | ApolloOutcome.requestError err =>
      Except.ok ("Request error occurred: " ++ err)
    | ApolloOutcome.otherError err =>
      Except.ok ("An unexpected error occurred: " ++ err)

/-- True iff the call came back as a plain string rather than a raised
exception. -/
def returns_string : Except String String → Bool
  | Except.ok _ => true
  | Except.error _ => false

/-- The params dict built by `find_email_by_name_and_company`. -/
def name_company_params (first_name last_name company_name : String) : List (String × String) :=
  [("first_name", first_name), ("last_name", last_name), ("organization_name", company_name)]

/-- The params dict built by `find_email_by_linkedin`. -/
def linkedin_params (linkedin_url : String) : List (String × String) :=
  [("person_linkedin_url", linkedin_url)]

/-- Lines 158 to 170 of the source: the name-and-company tool builds its
params dict and delegates to `_enrich_person`. -/
def find_email_by_name_and_company (first_name last_name company_name : String)
    (apollo_api_key : Option String)
    (world : List (String × String) → ApolloOutcome) : Except String String :=
  «_enrich_person» apollo_api_key (name_company_params first_name last_name company_name) world

/-- Lines 172 to 178 of the source: the LinkedIn tool builds its params
dict and delegates to `_enrich_person`. -/
def find_email_by_linkedin (linkedin_url : String)
    (apollo_api_key : Option String)
    (world : List (String × String) → ApolloOutcome) : Except String String :=
  «_enrich_person» apollo_api_key (linkedin_params linkedin_url) world

/-! ## Module-load snapshot of the API key -/

/-- Line 125 of the source:
`APOLLO_API_KEY = os.environ.get("APOLLO_API_KEY")`, evaluated once when
the module loads against the environment of that moment. -/
def module_apollo_key (env_at_load : String → Option String) : Option String :=
  env_at_load "APOLLO_API_KEY"

/-- An environment in which every variable has the same value. -/
def constEnv (v : Option String) : String → Option String :=
  fun _ => v

/-- An enrichment call made after module load: `_enrich_person` reads the
module-level `APOLLO_API_KEY` binding; the environment current at call
time is in scope (`os.environ` is always accessible) but is never
consulted. -/
def enrich_call (loaded_key : Option String) (env_at_call : String → Option String)
    (params : List (String × String))
    (world : List (String × String) → ApolloOutcome) : Except String String :=
  «_enrich_person» loaded_key params world

/-! ## Supporting lemmas: base64 -/

theorem is_b64_or_pad_b64Char : ∀ i : Nat, i < 64 → is_b64_or_pad (b64Char i) = true := by decide

theorem b64Encode_all_valid (bs : List Nat) (h : ∀ x ∈ bs, x < 256) :
    (b64Encode bs).all is_b64_or_pad = true := by
  induction bs using b64Encode.induct with
  | case1 => rfl
  | case2 a =>
    have ha : a < 256 := h a (by simp)
    have hpad : is_b64_or_pad '=' = true := rfl
    simp [b64Encode, List.all_cons, is_b64_or_pad_b64Char (a / 4) (by omega),
      is_b64_or_pad_b64Char (a % 4 * 16) (by omega), hpad]
  | case3 a b =>
    have ha : a < 256 := h a (by simp)
    have hb : b < 256 := h b (by simp)
    have hpad : is_b64_or_pad '=' = true := rfl
    simp [b64Encode, List.all_cons, is_b64_or_pad_b64Char (a / 4) (by omega),
      is_b64_or_pad_b64Char (a % 4 * 16 + b / 16) (by omega),
      is_b64_or_pad_b64Char (b % 16 * 4) (by omega), hpad]
  | case4 a b c rest ih =>
    have ha : a < 256 := h a (by simp)
    have hb : b < 256 := h b (by simp)
    have hc : c < 256 := h c (by simp)
    have hrest : ∀ x ∈ rest, x < 256 := fun x hx => h x (by simp [hx])
    simp [b64Encode, List.all_cons, is_b64_or_pad_b64Char (a / 4) (by omega),
      is_b64_or_pad_b64Char (a % 4 * 16 + b / 16) (by omega),
      is_b64_or_pad_b64Char (b % 16 * 4 + c / 64) (by omega),
      is_b64_or_pad_b64Char (c % 64) (by omega), ih hrest]

/-! ## Supporting lemmas: UTF-8 -/

theorem char_toNat_lt (c : Char) : c.toNat < 1114112 := by
  have h := c.valid
  unfold UInt32.isValidChar Nat.isValidChar at h
  simp only [Char.toNat]
  omega

theorem utf8EncodeChar_lt (c : Char) : ∀ b ∈ utf8EncodeChar c, b < 256 := by
  have hlt := char_toNat_lt c
  unfold utf8EncodeChar
  split_ifs with h1 h2 h3 <;> intro b hb <;> simp at hb <;> omega

theorem utf8Encode_lt (cs : List Char) : ∀ b ∈ utf8Encode cs, b < 256 := by
  intro b hb
  rw [utf8Encode, List.mem_flatMap] at hb
  obtain ⟨c, _, hbc⟩ := hb
  exact utf8EncodeChar_lt c b hbc

/-! ## Supporting lemmas: scanners and parsing -/

theorem brScan_escape (cs X : List Char) :
    brScan 0 (replace_newlines (html_escape cs) ++ X) = count_nl cs + brScan 0 X := by
  induction cs with
  | nil => simp [replace_newlines, html_escape, count_nl]
  | cons c cs ih =>
    simp only [replace_newlines] at ih
    have hstep : html_escape (c :: cs) = escapeChar c ++ html_escape cs := by
      simp [html_escape]
    rw [hstep]
    have happ : replace_newlines (escapeChar c ++ html_escape cs) ++ X =
        replace_newlines (escapeChar c) ++ (replace_newlines (html_escape cs) ++ X) := by
      simp [replace_newlines]
    rw [happ]
    by_cases h1 : c = '&'
    · subst h1
      simp [escapeChar, replace_newlines, brScan, brDelta, ih, count_nl]
    · by_cases h2 : c = '<'
      · subst h2
        simp [escapeChar, replace_newlines, brScan, brDelta, ih, count_nl]
      · by_cases h3 : c = '>'
        · subst h3
          simp [escapeChar, replace_newlines, brScan, brDelta, ih, count_nl]
        · by_cases h4 : c = '"'
          · subst h4
            simp [escapeChar, replace_newlines, brScan, brDelta, ih, count_nl]
          · by_cases h5 : c = Char.ofNat 39
            · subst h5
              simp [escapeChar, replace_newlines, brScan, brDelta, ih, count_nl]
            · have hesc : escapeChar c = [c] := by
                simp [escapeChar, h1, h2, h3, h4, h5]
              rw [hesc]
              by_cases h6 : c = '\n'
              · subst h6
                simp [replace_newlines, brScan, brDelta, ih, count_nl]
                omega
              · have hnl : replace_newlines [c] = [c] := by
                  simp [replace_newlines, h6]
                rw [hnl]
                simp [brScan, brDelta, replace_newlines, h2, h6, ih, count_nl]

theorem count_br_composeHtmlBody (cs : List Char) :
    count_br (composeHtmlBody cs) = count_nl cs + 1 := by
  unfold count_br composeHtmlBody
  have hP : "<html><body>".data = ['<', 'h', 't', 'm', 'l', '>', '<', 'b', 'o', 'd', 'y', '>'] := rfl
  rw [hP, List.append_assoc]
  have hPscan : ∀ Y : List Char,
      brScan 0 (['<', 'h', 't', 'm', 'l', '>', '<', 'b', 'o', 'd', 'y', '>'] ++ Y) = brScan 0 Y := by
    intro Y
    simp [brScan, brDelta]
  rw [hPscan, brScan_escape]
  have hS : brScan 0 "<br></body></html>".data = 1 := by decide
  rw [hS]

theorem enrich_person_returns_string (k : String) (hk : k ≠ "")
    (params : List (String × String)) (w : List (String × String) → ApolloOutcome) :
    returns_string («_enrich_person» (some k) params w) = true := by
  unfold «_enrich_person»
  have hkey : ¬(py_truthy (some k) = false) := by simp [py_truthy, hk]
  rw [if_neg hkey]
  cases hw : w params with
  | success person =>
    cases person with
    | none => rfl
    | some p =>
      rcases p with ⟨email⟩
      cases email with
      | none => rfl
      | some e => by_cases he : e = "" <;> simp [he, returns_string]
  | httpError a b => rfl
  | requestError a => rfl
  | otherError a => rfl

/-! ## Supporting lemmas: the composed HTML body stays on one line -/

theorem normalizeCRFrom_no_cr (bs : List Nat) (h : (13 : Nat) ∉ bs) :
    normalizeCRFrom false bs = bs := by
  induction bs with
  | nil => rfl
  | cons b rest ih =>
    have hb : b ≠ 13 := fun he => h (by simp [he])
    have hr : (13 : Nat) ∉ rest := fun he => h (by simp [he])
    by_cases h10 : b = 10
    · subst h10
      simp [normalizeCRFrom, ih hr]
    · simp [normalizeCRFrom, hb, h10, ih hr]

theorem splitOnByte10_no10 (bs : List Nat) (h : (10 : Nat) ∉ bs) : splitOnByte10 bs = [bs] := by
  induction bs with
  | nil => rfl
  | cons b rest ih =>
    have hb : b ≠ 10 := fun he => h (by simp [he])
    have hr : (10 : Nat) ∉ rest := fun he => h (by simp [he])
    simp [splitOnByte10, hb, ih hr]

theorem linesOfBytes_single (bs : List Nat) (h10 : (10 : Nat) ∉ bs) (h13 : (13 : Nat) ∉ bs)
    (hne : bs ≠ []) : linesOfBytes bs = [bs] := by
  unfold linesOfBytes normalizeCR
  rw [normalizeCRFrom_no_cr bs h13, splitOnByte10_no10 bs h10]
  have hcond : ¬([bs].getLast? = some []) := by simp [hne]
  rw [if_neg hcond]

theorem maxLineLen_single (bs : List Nat) (h10 : (10 : Nat) ∉ bs) (h13 : (13 : Nat) ∉ bs)
    (hne : bs ≠ []) : maxLineLen bs = bs.length := by
  unfold maxLineLen
  rw [linesOfBytes_single bs h10 h13 hne]
  simp

theorem multiline_check_of_no_boundary (v : List Char)
    (h : ∀ c ∈ v, isLineBoundary c = false) : multiline_check v = false := by
  induction v with
  | nil => rfl
  | cons c rest ih =>
    have hc := h c (by simp)
    have hcr : c ≠ '\r' := by
      intro he
      rw [he] at hc
      exact absurd hc (by decide)
    have hstep : multiline_check (c :: rest) = multiline_check rest := by
      rw [multiline_check.eq_def]
      simp [hcr, hc]
    rw [hstep]
    exact ih fun d hd => h d (by simp [hd])

theorem header_ok_no_boundary (v : List Char) (m : Nat) (h : header_value_ok v m = true) :
    ∀ c ∈ v, isLineBoundary c = false := by
  intro c hc
  rw [header_value_ok, Bool.and_eq_true, List.all_eq_true] at h
  have hcp := h.1 c hc
  rw [Bool.and_eq_true] at hcp
  simpa using hcp.2

theorem atext_ascii (c : Char) (h : atext_char c = true) : c.toNat < 128 := by
  rw [atext_char] at h
  generalize c.toNat = n at h ⊢
  simp at h
  rcases h with ⟨h1, h2⟩ | ⟨h1, h2⟩ | ⟨h1, h2⟩ | h | h | h | h | h | h | h | h | h | h | h | h |
    h | h | h | h | h | h | h <;> omega

theorem atext_not_boundary (c : Char) (h : atext_char c = true) : isLineBoundary c = false := by
  rw [atext_char] at h
  rw [isLineBoundary]
  generalize c.toNat = n at h ⊢
  simp at h ⊢
  rcases h with ⟨h1, h2⟩ | ⟨h1, h2⟩ | ⟨h1, h2⟩ | h | h | h | h | h | h | h | h | h | h | h | h |
    h | h | h | h | h | h | h <;> omega

theorem splitAtSign_eq (cs l d : List Char) (h : splitAtSign cs = some (l, d)) :
    cs = l ++ '@' :: d := by
  induction cs generalizing l with
  | nil => simp [splitAtSign] at h
  | cons c rest ih =>
    rw [splitAtSign] at h
    by_cases hc : c = '@'
    · rw [if_pos hc] at h
      simp at h
      obtain ⟨h1, h2⟩ := h
      subst hc h1 h2
      rfl
    · rw [if_neg hc] at h
      cases hsp : splitAtSign rest with
      | none => rw [hsp] at h; simp at h
      | some p =>
        obtain ⟨a, b⟩ := p
        rw [hsp] at h
        simp at h
        obtain ⟨h1, h2⟩ := h
        subst h1 h2
        rw [List.cons_append]
        exact congrArg (c :: ·) (ih a hsp)

theorem dotAtomF_mem (b : Bool) (cs : List Char) (h : dotAtomF b cs = true) :
    ∀ c ∈ cs, atext_char c = true ∨ c = '.' := by
  induction cs generalizing b with
  | nil => intro c hc; simp at hc
  | cons x xs ih =>
    rw [dotAtomF] at h
    intro c hc
    by_cases hx : x = '.'
    · rw [if_pos hx, Bool.and_eq_true] at h
      rcases List.mem_cons.mp hc with h1 | h1
      · right; rw [h1, hx]
      · exact ih false h.2 c h1
    · rw [if_neg hx, Bool.and_eq_true] at h
      rcases List.mem_cons.mp hc with h1 | h1
      · left; rw [h1]; exact h.1
      · exact ih true h.2 c h1

theorem addr_spec_no_boundary (cs : List Char) (h : addr_spec_ok cs = true) :
    ∀ c ∈ cs, isLineBoundary c = false := by
  unfold addr_spec_ok at h
  cases hsp : splitAtSign cs with
  | none => rw [hsp] at h; simp at h
  | some p =>
    obtain ⟨l, d⟩ := p
    rw [hsp] at h
    simp only [Bool.and_eq_true] at h
    obtain ⟨hl, hd⟩ := h
    have hcs := splitAtSign_eq cs l d hsp
    intro c hc
    rw [hcs] at hc
    rcases List.mem_append.mp hc with h1 | h1
    · rcases dotAtomF_mem false l hl c h1 with ha | ha
      · exact atext_not_boundary c ha
      · rw [ha]; decide
    · rcases List.mem_cons.mp h1 with h2 | h2
      · rw [h2]; decide
      · rcases dotAtomF_mem false d hd c h2 with ha | ha
        · exact atext_not_boundary c ha
        · rw [ha]; decide

theorem compose_payload_ok (recipient_email subject body : String)
    (hr : multiline_check recipient_email.data = false)
    (hs : multiline_check subject.data = false) :
    compose_payload recipient_email subject body
      = Except.ok (send_email_payload recipient_email subject body) := by
  rw [compose_payload, header_store_parse, if_neg (by simp [hr]), header_store_parse,
    if_neg (by simp [hs])]
  rfl

/-! ## The claims -/

/-- C2 counterexample: the empty body has zero line breaks, yet the
composed HTML document contains one line-break marker — the composer
appends a trailing `<br>` before `</body>`. -/
theorem c2_markers_counterexample :
    count_br (compose_html_document "").data ≠ count_nl "".data := by decide

/-- C2 amended: for every plain body with N line-break characters, the
composed HTML document contains exactly N + 1 `<br>` markers — one per
line break plus the fixed trailing marker the composer appends before
`</body>`. -/
theorem c2_markers_amended (body : String) :
    count_br (compose_html_document body).data = count_nl body.data + 1 :=
  count_br_composeHtmlBody body.data

/-- C3 counterexample: with the API key unconfigured, an enrichment call
does not return a plain string — the `ValueError` raised by the key check
escapes the tool boundary (modelled as `Except.error`). -/
theorem c3_tool_never_raises_counterexample :
    returns_string («_enrich_person» none [] (constApolloWorld (ApolloOutcome.success none))) =
      false := rfl

/-- C3 amended: with a configured (nonempty) key, both enrichment tools
always return a plain string whatever the HTTP outcome; with the key
absent, the call raises the fatal `ValueError` configuration error before
any network request is issued — the raised error is independent of the
network world. -/
theorem c3_tool_error_behaviour (first_name last_name company_name linkedin_url k : String)
    (w w2 : List (String × String) → ApolloOutcome) (hk : k ≠ "") :
    returns_string (find_email_by_name_and_company first_name last_name company_name (some k) w) =
      true ∧
    returns_string (find_email_by_linkedin linkedin_url (some k) w) = true ∧
    find_email_by_name_and_company first_name last_name company_name none w =
      Except.error apollo_key_error_message ∧
    find_email_by_linkedin linkedin_url none w = Except.error apollo_key_error_message ∧
    find_email_by_name_and_company first_name last_name company_name none w =
      find_email_by_name_and_company first_name last_name company_name none w2 :=
  ⟨enrich_person_returns_string k hk _ w, enrich_person_returns_string k hk _ w,
    rfl, rfl, rfl⟩

/-- C3 witness: the amended behaviour at concrete inputs. -/
theorem c3_tool_error_behaviour_witness :
    returns_string (find_email_by_name_and_company "Jane" "Doe" "Acme" (some "key")
      (constApolloWorld (ApolloOutcome.success none))) = true ∧
    returns_string (find_email_by_linkedin "https://linkedin.com/in/jane" (some "key")
      (constApolloWorld (ApolloOutcome.success none))) = true ∧
    find_email_by_name_and_company "Jane" "Doe" "Acme" none
      (constApolloWorld (ApolloOutcome.success none)) =
      Except.error apollo_key_error_message ∧
    find_email_by_linkedin "https://linkedin.com/in/jane" none
      (constApolloWorld (ApolloOutcome.success none)) =
      Except.error apollo_key_error_message ∧
    find_email_by_name_and_company "Jane" "Doe" "Acme" none
      (constApolloWorld (ApolloOutcome.success none)) =
      find_email_by_name_and_company "Jane" "Doe" "Acme" none
        (constApolloWorld (ApolloOutcome.otherError "boom")) :=
  c3_tool_error_behaviour "Jane" "Doe" "Acme" "https://linkedin.com/in/jane" "key"
    (constApolloWorld (ApolloOutcome.success none))
    (constApolloWorld (ApolloOutcome.otherError "boom")) (by decide)

/-- C4: with a configured key, an HTTP success carrying a person with a
non-empty email yields exactly the Email-found string; a person without
an email, an empty email, or no person at all yields the fixed not-found
sentinel; an HTTP error status yields the string embedding the status
detail and the response text. -/
theorem c4_enrich_response_mapping (k e err text : String) (params : List (String × String))
    (hk : k ≠ "") (he : e ≠ "") :
    «_enrich_person» (some k) params (constApolloWorld (ApolloOutcome.success (some ⟨some e⟩))) =
      Except.ok ("Email found: " ++ e) ∧
    «_enrich_person» (some k) params (constApolloWorld (ApolloOutcome.success (some ⟨none⟩))) =
      Except.ok email_not_found_sentinel ∧
    «_enrich_person» (some k) params (constApolloWorld (ApolloOutcome.success (some ⟨some ""⟩))) =
      Except.ok email_not_found_sentinel ∧
    «_enrich_person» (some k) params (constApolloWorld (ApolloOutcome.success none)) =
      Except.ok email_not_found_sentinel ∧
    «_enrich_person» (some k) params (constApolloWorld (ApolloOutcome.httpError err text)) =
      Except.ok ("HTTP error occurred: " ++ err ++ " - " ++ text) := by
  refine ⟨?_, ?_, ?_, ?_, ?_⟩ <;>
    simp [«_enrich_person», constApolloWorld, py_truthy, hk, he]

/-- C4 witness: the response mapping at concrete inputs, with
`a@b.com` as the resolved email and a concrete HTTP 500 detail. -/
theorem c4_enrich_response_mapping_witness :
    «_enrich_person» (some "key") [] (constApolloWorld
      (ApolloOutcome.success (some ⟨some "a@b.com"⟩))) =
      Except.ok ("Email found: " ++ "a@b.com") ∧
    «_enrich_person» (some "key") [] (constApolloWorld (ApolloOutcome.success (some ⟨none⟩))) =
      Except.ok email_not_found_sentinel ∧
    «_enrich_person» (some "key") [] (constApolloWorld (ApolloOutcome.success (some ⟨some ""⟩))) =
      Except.ok email_not_found_sentinel ∧
    «_enrich_person» (some "key") [] (constApolloWorld (ApolloOutcome.success none)) =
      Except.ok email_not_found_sentinel ∧
    «_enrich_person» (some "key") [] (constApolloWorld
      (ApolloOutcome.httpError "500 Server Error" "oops")) =
      Except.ok ("HTTP error occurred: " ++ "500 Server Error" ++ " - " ++ "oops") :=
  c4_enrich_response_mapping "key" "a@b.com" "500 Server Error" "oops" [] (by decide) (by decide)

/-- C5: send_email renders every outcome as a string and never raises: on
success the string carries the recipient and the provider message id, a
provider HttpError becomes the failed-send string embedding the error,
and any other exception becomes the unexpected-error string. -/
theorem c5_send_email_results (recipient_email subject body msgId err exc : String) :
    send_email recipient_email subject body (constSendWorld (GmailSendOutcome.success msgId)) =
      "Successfully sent email to " ++ recipient_email ++ " with Message ID: " ++ msgId ∧
    send_email recipient_email subject body (constSendWorld (GmailSendOutcome.httpError err)) =
      "Failed to send email. Error: " ++ err ∧
    send_email recipient_email subject body (constSendWorld (GmailSendOutcome.otherError exc)) =
      "An unexpected error occurred: " ++ exc :=
  ⟨rfl, rfl, rfl⟩

/-- C6: when the persisted token exists, is expired, carries a refresh
token, and the refresh succeeds, obtaining the mail session never runs
the interactive consent flow (`flow.run_local_server`). -/
theorem c6_refresh_skips_interactive (env : GmailEnv) (c refreshed : GoogleCreds)
    (htok : env.token_file = some c) (hexp : c.expired = true)
    (hrt : py_truthy c.refresh_token = true)
    (hrefresh : env.refresh_result = Except.ok refreshed) :
    GmailAction.runLocalServer ∉ (get_gmail_service env).2 := by
  unfold get_gmail_service
  rw [htok]
  by_cases hv : c.valid
  · simp [hv]
  · simp [hv, hexp, hrt, hrefresh]

/-- C6 witness: a concrete expired record with a refresh token whose
refresh succeeds; the resulting action trace has no interactive step. -/
theorem c6_refresh_skips_interactive_witness :
    GmailAction.runLocalServer ∉
      (get_gmail_service
        ⟨some ⟨false, true, some "token"⟩, true,
          Except.ok ⟨true, false, none⟩, ⟨true, false, none⟩⟩).2 :=
  c6_refresh_skips_interactive _ ⟨false, true, some "token"⟩ ⟨true, false, none⟩
    rfl rfl (by decide) rfl

/-- C7: with no persisted token file and no client-secret file,
get_gmail_service fails with the missing-credentials configuration error
and performs no action at all — in particular no network I/O — before
failing. -/
theorem c7_missing_credentials_fails_early (env : GmailEnv)
    (htok : env.token_file = none) (hcred : env.credentials_file_exists = false) :
    get_gmail_service env = (Except.error credentials_not_found_message, []) := by
  unfold get_gmail_service
  rw [htok]
  simp [hcred]

/-- C7 witness: the failure at a concrete environment with neither file. -/
theorem c7_missing_credentials_fails_early_witness :
    get_gmail_service ⟨none, false, Except.ok ⟨true, false, none⟩, ⟨true, false, none⟩⟩ =
      (Except.error credentials_not_found_message, []) :=
  c7_missing_credentials_fails_early _ rfl rfl

/-- C9: the two enrichment query shapes are mutually exclusive — the
name-and-company tool sends exactly the first-name, last-name and
organization-name fields, the LinkedIn tool sends exactly the profile-URL
field, and the two key sets are disjoint; each tool passes its dict to
`_enrich_person` verbatim. -/
theorem c9_query_shapes_exclusive (first_name last_name company_name linkedin_url : String)
    (apollo_api_key : Option String) (w : List (String × String) → ApolloOutcome) :
    (name_company_params first_name last_name company_name).map Prod.fst =
      ["first_name", "last_name", "organization_name"] ∧
    (linkedin_params linkedin_url).map Prod.fst = ["person_linkedin_url"] ∧
    (((name_company_params first_name last_name company_name).map Prod.fst).all
      fun key => !(((linkedin_params linkedin_url).map Prod.fst).contains key)) = true ∧
    find_email_by_name_and_company first_name last_name company_name apollo_api_key w =
      «_enrich_person» apollo_api_key (name_company_params first_name last_name company_name) w ∧
    find_email_by_linkedin linkedin_url apollo_api_key w =
      «_enrich_person» apollo_api_key (linkedin_params linkedin_url) w :=
  ⟨rfl, rfl, rfl, rfl, rfl⟩

/-- C10: the API key is the module-load snapshot of the environment — a
call's result never depends on the environment current at call time: if
the key was absent at load, every call fails with the configuration error
whatever the current environment says, and a key read at load keeps being
used after the variable is unset. -/
theorem c10_key_snapshot (env0 env1 envA envB : String → Option String) (k : String)
    (params : List (String × String)) (w : List (String × String) → ApolloOutcome)
    (hnone : env0 "APOLLO_API_KEY" = none)
    (hsome : env1 "APOLLO_API_KEY" = some k) :
    enrich_call (module_apollo_key env0) envA params w =
      enrich_call (module_apollo_key env0) envB params w ∧
    enrich_call (module_apollo_key env1) envA params w =
      enrich_call (module_apollo_key env1) envB params w ∧
    enrich_call (module_apollo_key env0) envA params w =
      Except.error apollo_key_error_message ∧
    enrich_call (module_apollo_key env1) envA params w =
      «_enrich_person» (some k) params w := by
  refine ⟨rfl, rfl, ?_, ?_⟩
  · unfold enrich_call module_apollo_key
    rw [hnone]
    rfl
  · unfold enrich_call module_apollo_key
    rw [hsome]

/-- C10 witness: a load-time environment without the key keeps failing
even when the call-time environment defines it, and a load-time key keeps
working after the variable is unset. -/
theorem c10_key_snapshot_witness :
    enrich_call (module_apollo_key (constEnv none)) (constEnv (some "LATER")) []
        (constApolloWorld (ApolloOutcome.success none)) =
      enrich_call (module_apollo_key (constEnv none)) (constEnv none) []
        (constApolloWorld (ApolloOutcome.success none)) ∧
    enrich_call (module_apollo_key (constEnv (some "K"))) (constEnv (some "LATER")) []
        (constApolloWorld (ApolloOutcome.success none)) =
      enrich_call (module_apollo_key (constEnv (some "K"))) (constEnv none) []
        (constApolloWorld (ApolloOutcome.success none)) ∧
    enrich_call (module_apollo_key (constEnv none)) (constEnv (some "LATER")) []
        (constApolloWorld (ApolloOutcome.success none)) =
      Except.error apollo_key_error_message ∧
    enrich_call (module_apollo_key (constEnv (some "K"))) (constEnv (some "LATER")) []
        (constApolloWorld (ApolloOutcome.success none)) =
      «_enrich_person» (some "K") [] (constApolloWorld (ApolloOutcome.success none)) :=
  c10_key_snapshot (constEnv none) (constEnv (some "K")) (constEnv (some "LATER"))
    (constEnv none) "K" [] (constApolloWorld (ApolloOutcome.success none)) rfl rfl

/-- C8 counterexample: the composing pipeline is not total — a recipient
spanning two lines makes the To header assignment at line 104 raise the
policy `ValueError`, so no payload is produced for this input. -/
theorem c8_composer_counterexample :
    compose_payload "a\nb@c.d" "Hi" "x" = Except.error header_policy_error_message := by
  rfl

/-- C8 amended: the composing pipeline of lines 97 to 109 is a
deterministic pure function of its three string arguments, but it is
total only once the header values pass the header policy: for every
recipient that is a plain dot-atom address of at most 74 characters and
every single-line ASCII subject of at most 69 characters — and every
body whatsoever, including control characters and the empty string — it
produces a payload whose every character lies in the URL-safe base64
alphabet or is the padding character. -/
theorem c8_composer_amended (recipient_email subject body : String)
    (hr : addr_spec_ok recipient_email.data = true)
    (hrlen : recipient_email.data.length ≤ 74)
    (hs : header_value_ok subject.data 69 = true) :
    compose_payload recipient_email subject body
        = Except.ok (send_email_payload recipient_email subject body)
      ∧ ((send_email_payload recipient_email subject body).data.all is_b64_or_pad) = true := by
  have hmr : multiline_check recipient_email.data = false :=
    multiline_check_of_no_boundary _ (addr_spec_no_boundary _ hr)
  have hms : multiline_check subject.data = false :=
    multiline_check_of_no_boundary _ (header_ok_no_boundary _ 69 hs)
  refine ⟨compose_payload_ok recipient_email subject body hmr hms, ?_⟩
  have hd : (send_email_payload recipient_email subject body).data
      = b64Encode (serializeMessage recipient_email.data subject.data
          (composeHtmlBody body.data)) := rfl
  rw [hd]
  refine b64Encode_all_valid _ ?_
  rw [serializeMessage]
  exact utf8Encode_lt _

/-- C8 witness: the amended composer behaviour at a concrete recipient
with an empty subject and a body containing a control character. -/
theorem c8_composer_amended_witness :
    addr_spec_ok ("a@b.c").data = true
    ∧ ("a@b.c").data.length ≤ 74
    ∧ header_value_ok ("").data 69 = true
    ∧ (compose_payload "a@b.c" "" "x\ty"
          = Except.ok (send_email_payload "a@b.c" "" "x\ty")
        ∧ ((send_email_payload "a@b.c" "" "x\ty").data.all is_b64_or_pad) = true) :=
  ⟨by decide, by decide, by decide,
    c8_composer_amended "a@b.c" "" "x\ty" (by decide) (by decide) (by decide)⟩

end EmailGen
